import Mathlib

/-!
Verification of the parameter-metadata engine of sst-basic-blocks
(`include/sst/basic-blocks/params/ParamMetadata.h`).

The C++ code computes with `float`/`double`.  The embedding models the
machine numbers as exact numbers: every configuration constant of the
source is a rational, so descriptor fields and the purely arithmetic
conversions live in `ℚ`; the display transforms use `pow(2.0, x)` and
`log2`, so every function touching those lives in `ℝ` (with the rational
fields coerced).  A C++ cast `(int)x` truncates toward zero and
`std::round` rounds half away from zero; both are modelled explicitly.
`assert` is a debug-build statement compiled out of release builds, so it
is modelled as a no-op (the value the code computes after the assert is
what the model returns).
-/

namespace SBB

/-- Truncation toward zero on `ℚ`: the semantics of the C++ cast `(int)x`. -/
def cppTruncQ (q : ℚ) : ℤ := if 0 ≤ q then ⌊q⌋ else ⌈q⌉

/-- `std::round` on `ℚ`: round half away from zero. -/
def cppRoundQ (q : ℚ) : ℤ := if 0 ≤ q then ⌊q + 1/2⌋ else ⌈q - 1/2⌉

/-- `std::clamp(v, lo, hi)`. -/
def cppClamp (v lo hi : ℚ) : ℚ := if v < lo then lo else if hi < v then hi else v

/-- Truncation toward zero on `ℝ`: the semantics of the C++ cast `(int)x`. -/
noncomputable def cppIntR (x : ℝ) : ℤ := if 0 ≤ x then ⌊x⌋ else ⌈x⌉

/-- `std::round` on `ℝ`: round half away from zero. -/
noncomputable def cppRoundR (x : ℝ) : ℤ := if 0 ≤ x then ⌊x + 1/2⌋ else ⌈x - 1/2⌉

/-- `pow(2.0, x)`. -/
noncomputable def exp2 (x : ℝ) : ℝ := (2 : ℝ) ^ x

/-- `ParamMetaData::Type`. -/
inductive PType
  | FLOAT
  | INT
  | BOOL
  | NONE
deriving DecidableEq, Repr

/-- `ParamMetaData::DisplayScale`. -/
inductive DisplayScale
  | LINEAR
  | A_TWO_TO_THE_B
  | DECIBEL
  | UNORDERED_MAP
  | USER_PROVIDED
deriving DecidableEq, Repr

/-- `ParamMetaData::FeatureState`: four per-call display-mode booleans. -/
structure FeatureState where
  isHighPrecision : Bool := false
  isExtended : Bool := false
  isAbsolute : Bool := false
  isTemposynced : Bool := false
deriving DecidableEq, Repr

/-- `FeatureState::withHighPrecision`: copy `*this` into `res`, set the field
on `res`, return `res`. -/
def FeatureState.withHighPrecision (fs : FeatureState) (e : Bool) : FeatureState :=
  { fs with isHighPrecision := e }

/-- `FeatureState::withExtended`: copy `*this` into `res`, set the field on
`res`, return `res`. -/
def FeatureState.withExtended (fs : FeatureState) (e : Bool) : FeatureState :=
  { fs with isExtended := e }

/-- `FeatureState::withAbsolute`.  The source reads
`auto res = *this; isAbsolute = e; return res;` — the assignment lands on
`*this`, not on `res`.  The model returns the pair
(receiver after the call, returned value): the receiver ends up with
`isAbsolute = e`, while the returned copy keeps the receiver's old field. -/
def FeatureState.withAbsolute (fs : FeatureState) (e : Bool) : FeatureState × FeatureState :=
  ({ fs with isAbsolute := e }, fs)

/-- `FeatureState::withTemposync`: copy `*this` into `res`, set the field on
`res`, return `res`. -/
def FeatureState.withTemposync (fs : FeatureState) (e : Bool) : FeatureState :=
  { fs with isTemposynced := e }

/-- `ParamMetaData`: the descriptor fields, with the source's defaults. -/
structure ParamMetaData where
  type : PType := .FLOAT
  name : String := ""
  minVal : ℚ := 0
  maxVal : ℚ := 1
  defaultVal : ℚ := 0
  canExtend : Bool := false
  canDeform : Bool := false
  canAbsolute : Bool := false
  canTemposync : Bool := false
  canDeactivate : Bool := false
  deformationCount : ℤ := 0
  supportsStringConversion : Bool := false
  displayScale : DisplayScale := .LINEAR
  unit : String := ""
  customMinDisplay : String := ""
  customMaxDisplay : String := ""
  customDefaultDisplay : String := ""
  discreteValues : List (ℤ × String) := []
  decimalPlaces : ℕ := 2
  svA : ℚ := 0
  svB : ℚ := 0
  svC : ℚ := 0
  svD : ℚ := 0
  exA : ℚ := 1
  exB : ℚ := 0
deriving DecidableEq, Repr

/-- A default-constructed `ParamMetaData`. -/
def defaultPMD : ParamMetaData := {}

/-- `ParamMetaData::naturalToNormalized01`.  The switch computes `v` per type
(the `NONE` case carries a debug-only `assert(false)` and leaves `v = 0`),
then the result is clamped to `[0,1]`. -/
def ParamMetaData.naturalToNormalized01 (p : ParamMetaData) (naturalValue : ℚ) : ℚ :=
  let v : ℚ :=
    match p.type with
    | .FLOAT => (naturalValue - p.minVal) / (p.maxVal - p.minVal)
    | .INT => 0.005 + 0.99 * (naturalValue - p.minVal) / (p.maxVal - p.minVal)
    | .BOOL => if naturalValue > 0.5 then 1 else 0
    | .NONE => 0
  cppClamp v 0 1

/-- `ParamMetaData::normalized01ToNatural`.  The input is clamped to `[0,1]`
first; the `NONE` case carries a debug-only `assert(false)` and returns `0`. -/
def ParamMetaData.normalized01ToNatural (p : ParamMetaData) (normalizedValue : ℚ) : ℚ :=
  let nv := cppClamp normalizedValue 0 1
  match p.type with
  | .FLOAT => nv * (p.maxVal - p.minVal) + p.minVal
  | .INT => (cppTruncQ ((1 / 0.99) * (nv - 0.005) * (p.maxVal - p.minVal) + 0.5) : ℚ) + p.minVal
  | .BOOL => if nv > 0.5 then p.maxVal else p.minVal
  | .NONE => 0

/-- `ParamMetaData::withType`. -/
def ParamMetaData.withType (p : ParamMetaData) (t : PType) : ParamMetaData :=
  { p with type := t }

/-- `ParamMetaData::withName`. -/
def ParamMetaData.withName (p : ParamMetaData) (t : String) : ParamMetaData :=
  { p with name := t }

/-- `ParamMetaData::withRange`.  Note the source clamps `defaultVal` with the
receiver's old `minVal`/`maxVal`, not with the new bounds. -/
def ParamMetaData.withRange (p : ParamMetaData) (mn mx : ℚ) : ParamMetaData :=
  { p with minVal := mn, maxVal := mx, defaultVal := cppClamp p.defaultVal p.minVal p.maxVal }

/-- `ParamMetaData::withDefault`. -/
def ParamMetaData.withDefault (p : ParamMetaData) (t : ℚ) : ParamMetaData :=
  { p with defaultVal := t }

/-- `ParamMetaData::withATwoToTheBPlusCFormatting`. -/
def ParamMetaData.withATwoToTheBPlusCFormatting (p : ParamMetaData) (A B C : ℚ)
    (units : String) : ParamMetaData :=
  { p with svA := A, svB := B, svC := C, unit := units, displayScale := .A_TWO_TO_THE_B,
           supportsStringConversion := true }

/-- `ParamMetaData::withATwoToTheBFormatting`. -/
def ParamMetaData.withATwoToTheBFormatting (p : ParamMetaData) (A B : ℚ)
    (units : String) : ParamMetaData :=
  p.withATwoToTheBPlusCFormatting A B 0 units

/-- `ParamMetaData::withSemitoneZeroAt400Formatting`. -/
def ParamMetaData.withSemitoneZeroAt400Formatting (p : ParamMetaData) : ParamMetaData :=
  p.withATwoToTheBFormatting 440 (1/12) ("Hz")

/-- `ParamMetaData::withLinearScaleFormatting` (scale defaulting is applied at
call sites). -/
def ParamMetaData.withLinearScaleFormatting (p : ParamMetaData) (units : String)
    (scale : ℚ) : ParamMetaData :=
  { p with svA := scale, unit := units, displayScale := .LINEAR,
           supportsStringConversion := true }

/-- `ParamMetaData::withDecimalPlaces`. -/
def ParamMetaData.withDecimalPlaces (p : ParamMetaData) (d : ℕ) : ParamMetaData :=
  { p with decimalPlaces := d }

/-- `ParamMetaData::withCustomMaxDisplay`. -/
def ParamMetaData.withCustomMaxDisplay (p : ParamMetaData) (v : String) : ParamMetaData :=
  { p with customMaxDisplay := v }

/-- `ParamMetaData::withCustomMinDisplay`. -/
def ParamMetaData.withCustomMinDisplay (p : ParamMetaData) (v : String) : ParamMetaData :=
  { p with customMinDisplay := v }

/-- `ParamMetaData::asPercent`. -/
def ParamMetaData.asPercent (p : ParamMetaData) : ParamMetaData :=
  ((((p.withRange 0 1).withDefault 0).withType .FLOAT).withLinearScaleFormatting ("%")
    100).withDecimalPlaces 2

/-- `ParamMetaData::asPercentBipolar`. -/
def ParamMetaData.asPercentBipolar (p : ParamMetaData) : ParamMetaData :=
  ((((p.withRange (-1) 1).withDefault 0).withType .FLOAT).withLinearScaleFormatting ("%")
    100).withDecimalPlaces 2

/-- `ParamMetaData::asAudibleFrequency`. -/
def ParamMetaData.asAudibleFrequency (p : ParamMetaData) : ParamMetaData :=
  (((p.withType .FLOAT).withRange (-60) 70).withDefault 0).withSemitoneZeroAt400Formatting

/-- Left-pad a digit string with zeros up to width `d`. -/
def padZeros (s : String) (d : ℕ) : String :=
  if d ≤ s.length then s else String.mk (List.replicate (d - s.length) '0') ++ s

/-- Render a scaled integer `n` (the value times `10^d`) as a fixed-point
decimal string with `d` digits after the point: the digit string produced by
a C `%.*f` conversion. -/
def renderFixed (n : ℤ) (d : ℕ) : String :=
  let sign := if n < 0 then "-" else ""
  let m := n.natAbs
  if d = 0 then sign ++ toString m
  else sign ++ toString (m / 10 ^ d) ++ "." ++ padZeros (toString (m % 10 ^ d)) d

/-- Scale `x` by `10^d` and round half away from zero, the rounding used to
produce a fixed-point rendering of a machine number.  (printf ties are
resolved by the binary representation; no tie is exercised here.) -/
noncomputable def scaledOf (x : ℝ) (d : ℕ) : ℤ :=
  if 0 ≤ x then ⌊x * 10 ^ d + 1/2⌋ else -⌊-x * 10 ^ d + 1/2⌋

/-- `fmt::format("{:.{}f}", x, d)`: fixed-point formatting of `x` with `d`
decimal places. -/
noncomputable def fmtFixed (x : ℝ) (d : ℕ) : String := renderFixed (scaledOf x d) d

/-- The decimal-place count used by the formatting calls:
`fs.isHighPrecision ? decimalPlaces + 4 : decimalPlaces`. -/
def dpOf (p : ParamMetaData) (fs : FeatureState) : ℕ :=
  if fs.isHighPrecision then p.decimalPlaces + 4 else p.decimalPlaces

/-- `discreteValues.find(iv)` followed by `discreteValues.at(iv)` on the
unordered map, modelled on the association list. -/
def lookupDiscrete (m : List (ℤ × String)) (iv : ℤ) : Option String :=
  match m.find? (fun q => q.1 = iv) with
  | some q => some q.2
  | none => none

/-- `ParamMetaData::temposyncNotation`.  `modff` splits `f` into integral part
`a0` (truncated toward zero) and fractional part `b0`; for `f ≤ 0` integral,
the C float fractional part is `-0.0`, and `-0.0 >= 0` holds, so the model's
`b0 = 0` takes the same adjustment branch as the source. -/
noncomputable def ParamMetaData.temposyncNotation (_p : ParamMetaData) (f : ℝ) : String :=
  let a0 : ℝ := (cppIntR f : ℤ)
  let b0 : ℝ := f - a0
  let b : ℝ := if 0 ≤ b0 then b0 - 1 else b0
  let a : ℝ := if 0 ≤ b0 then a0 + 1 else a0
  if 1 ≤ f then
    let q := exp2 (f - 1)
    if 3 ≤ q then
      if |q - (⌊q + 0.01⌋ : ℤ)| < 0.01 then
        toString (⌊q + 0.01⌋ : ℤ) ++ " whole notes"
      else
        toString (⌊q * 3 / 2 + 0.02⌋ : ℤ) ++ " whole triplets"
    else
      let nn0 := "whole"
      let nn1 := if 2 ≤ q then "double whole" else nn0
      let q1 := if 2 ≤ q then q / 2 else q
      if q1 < 1.3 then nn1 ++ " " ++ "note"
      else if q1 < 1.4 then
        if nn1 = "whole" then "double whole" ++ " " ++ "triplet"
        else toString (⌊exp2 (f - 1) * 3 / 2 + 0.02⌋ : ℤ) ++ " whole triplets"
      else nn1 ++ " " ++ "dotted"
  else
    let d0 := exp2 (-(a - 2))
    let q := exp2 (b + 1)
    if q < 1.3 then
      (if d0 = 1 then "whole" else "1/" ++ toString (cppIntR d0)) ++ " " ++ "note"
    else if q < 1.4 then
      let d1 := d0 / 2
      (if d1 = 1 then "whole" else "1/" ++ toString (cppIntR d1)) ++ " " ++ "triplet"
    else
      (if d0 = 1 then "whole" else "1/" ++ toString (cppIntR d0)) ++ " " ++ "dotted"

/-- `ParamMetaData::valueToString`. -/
noncomputable def ParamMetaData.valueToString (p : ParamMetaData) (val0 : ℝ)
    (fs : FeatureState) : Option String :=
  if p.type = .BOOL then
    if val0 < 0 then
      (if p.customMinDisplay = "" then some ("Off") else some p.customMinDisplay)
    else
      (if p.customMaxDisplay = "" then some ("On") else some p.customMaxDisplay)
  else if p.type = .INT then
    let iv := cppRoundR val0
    if p.displayScale = .UNORDERED_MAP then lookupDiscrete p.discreteValues iv
    else none
  else
  if p.customMinDisplay ≠ "" ∧ val0 = (p.minVal : ℝ) then some p.customMinDisplay
  else if p.customMaxDisplay ≠ "" ∧ val0 = (p.maxVal : ℝ) then some p.customMaxDisplay
  else if p.customDefaultDisplay ≠ "" ∧ val0 = (p.defaultVal : ℝ) then
    some p.customDefaultDisplay
  else
  let val := if fs.isExtended then (p.exA : ℝ) * val0 + (p.exB : ℝ) else val0
  if fs.isTemposynced then some (p.temposyncNotation val)
  else
  match p.displayScale with
  | .LINEAR =>
    if val = (p.minVal : ℝ) ∧ p.customMinDisplay ≠ "" then some p.customMinDisplay
    else if val = (p.maxVal : ℝ) ∧ p.customMaxDisplay ≠ "" then
      some p.customMinDisplay
    else some (fmtFixed ((p.svA : ℝ) * val) (dpOf p fs) ++ " " ++ p.unit)
  | .A_TWO_TO_THE_B =>
    if val = (p.minVal : ℝ) ∧ p.customMinDisplay ≠ "" then some p.customMinDisplay
    else if val = (p.maxVal : ℝ) ∧ p.customMaxDisplay ≠ "" then
      some p.customMinDisplay
    else
      some (fmtFixed ((p.svA : ℝ) * exp2 ((p.svB : ℝ) * val + (p.svC : ℝ))) (dpOf p fs)
        ++ " " ++ p.unit)
  | _ => none

/-- `ParamMetaData::valueToAlternateString`. -/
def ParamMetaData.valueToAlternateString (_p : ParamMetaData) (_val : ℚ) : Option String :=
  none

/-- The `rangeMsg` lambda of `ParamMetaData::valueFromString`: format both
boundary values; fall back to a fixed text when either has no string. -/
noncomputable def ParamMetaData.rangeMsg (p : ParamMetaData) : String :=
  match p.valueToString (p.minVal : ℝ) {}, p.valueToString (p.maxVal : ℝ) {} with
  | some nv, some xv => nv ++ " < val < " ++ xv
  | _, _ => "Invalid input"

/-- `ParamMetaData::valueFromString`.  `parsed` is the outcome of
`std::stof` on the text: `some r` when parsing succeeds with value `r`,
`none` when it throws.  The result pairs the returned optional with the final
content of the by-reference error message (initially empty).  In the
`A_TWO_TO_THE_B` branch a parsed value of exactly `0` makes the C `log2`
return `-inf`, so the subsequent range check always fails; the model folds
that into an explicit branch. -/
noncomputable def ParamMetaData.valueFromString (p : ParamMetaData) (v : String)
    (parsed : Option ℚ) : Option ℝ × String :=
  if p.type = .BOOL then (none, "")
  else if p.type = .INT then (none, "")
  else if p.customMinDisplay ≠ "" ∧ v = p.customMinDisplay then (some (p.minVal : ℝ), "")
  else if p.customMaxDisplay ≠ "" ∧ v = p.customMaxDisplay then (some (p.maxVal : ℝ), "")
  else
    match p.displayScale with
    | .LINEAR =>
      match parsed with
      | some r0 =>
        let r : ℝ := (r0 : ℝ) / (p.svA : ℝ)
        if r < (p.minVal : ℝ) ∨ r > (p.maxVal : ℝ) then (none, p.rangeMsg)
        else (some r, "")
      | none => (none, p.rangeMsg)
    | .A_TWO_TO_THE_B =>
      match parsed with
      | some r0 =>
        if (r0 : ℝ) < 0 then (none, p.rangeMsg)
        else if (r0 : ℝ) = 0 then (none, p.rangeMsg)
        else
          let r : ℝ := (Real.logb 2 ((r0 : ℝ) / (p.svA : ℝ)) - (p.svC : ℝ)) / (p.svB : ℝ)
          if r < (p.minVal : ℝ) ∨ r > (p.maxVal : ℝ) then (none, p.rangeMsg)
          else (some r, "")
      | none => (none, p.rangeMsg)
    | _ => (none, "")

/-- `ParamMetaData::ModulationDisplay`: the seven result strings, default
constructed empty. -/
structure ModulationDisplay where
  value : String := ""
  summary : String := ""
  baseValue : String := ""
  valUp : String := ""
  valDown : String := ""
  changeUp : String := ""
  changeDown : String := ""
deriving DecidableEq, Repr

/-- `ParamMetaData::modulationNaturalToString`. -/
noncomputable def ParamMetaData.modulationNaturalToString (p : ParamMetaData)
    (naturalBaseVal modulationNatural : ℝ) (isBipolar : Bool) (fs : FeatureState) :
    Option ModulationDisplay :=
  if p.type ≠ .FLOAT then none
  else
    match p.displayScale with
    | .LINEAR =>
      let du := modulationNatural
      let dd := -modulationNatural
      let dp := dpOf p fs
      let value := fmtFixed ((p.svA : ℝ) * du) dp ++ " " ++ p.unit
      let summary :=
        if isBipolar then
          if du > 0 then "+/- " ++ fmtFixed ((p.svA : ℝ) * du) dp ++ " " ++ p.unit
          else "-/+ " ++ fmtFixed (-(p.svA : ℝ) * du) dp ++ " " ++ p.unit
        else fmtFixed ((p.svA : ℝ) * du) dp ++ " " ++ p.unit
      let changeUp := fmtFixed ((p.svA : ℝ) * du) dp
      let changeDown := if isBipolar then fmtFixed ((p.svA : ℝ) * dd) dp else ""
      let valUp := fmtFixed ((p.svA : ℝ) * (naturalBaseVal + du)) dp
      let valDown := if isBipolar then fmtFixed ((p.svA : ℝ) * (naturalBaseVal + du)) dp else ""
      let baseValue :=
        match p.valueToString naturalBaseVal fs with
        | some s => s
        | none => "-ERROR-"
      some { value := value, summary := summary, baseValue := baseValue, valUp := valUp,
             valDown := valDown, changeUp := changeUp, changeDown := changeDown }
    | .A_TWO_TO_THE_B =>
      let nvu := naturalBaseVal + modulationNatural
      let nvd := naturalBaseVal - modulationNatural
      let scv := (p.svA : ℝ) * exp2 ((p.svB : ℝ) * naturalBaseVal)
      let svu := (p.svA : ℝ) * exp2 ((p.svB : ℝ) * nvu)
      let svd := (p.svA : ℝ) * exp2 ((p.svB : ℝ) * nvd)
      let du := svu - scv
      let dd := scv - svd
      let dp := dpOf p fs
      let value := fmtFixed du dp ++ " " ++ p.unit
      let summary :=
        if isBipolar then
          if du > 0 then "+/- " ++ fmtFixed du dp ++ " " ++ p.unit
          else "-/+ " ++ fmtFixed (-du) dp ++ " " ++ p.unit
        else fmtFixed du dp ++ " " ++ p.unit
      let changeUp := fmtFixed du dp
      let changeDown := if isBipolar then fmtFixed dd dp else ""
      let valUp := fmtFixed nvu dp
      let valDown := if isBipolar then fmtFixed nvd dp else ""
      let baseValue :=
        match p.valueToString naturalBaseVal fs with
        | some s => s
        | none => "-ERROR-"
      some { value := value, summary := summary, baseValue := baseValue, valUp := valUp,
             valDown := valDown, changeUp := changeUp, changeDown := changeDown }
    | _ => none

/-- A coarse model of fmt's default (`{}`) float rendering, used only inside
an error message no claim inspects. -/
noncomputable def fmtGeneral (x : ℝ) : String := renderFixed (scaledOf x 6) 6

/-- `ParamMetaData::modulationNaturalFromString`.  `parsed` is the outcome of
`std::stof` on the text.  As in `valueFromString`, a display value of exactly
`0` in the `A_TWO_TO_THE_B` branch sends the C `log2` to `-inf` and the range
check below it then always fails; the model folds that into a branch. -/
noncomputable def ParamMetaData.modulationNaturalFromString (p : ParamMetaData)
    (parsed : Option ℚ) (naturalBaseVal : ℝ) : Option ℝ × String :=
  match p.displayScale with
  | .LINEAR =>
    match parsed with
    | some s0 =>
      let mv : ℝ := (s0 : ℝ) / (p.svA : ℝ)
      if |mv| > (p.maxVal : ℝ) - (p.minVal : ℝ) then
        (none, "Maximum depth: " ++ fmtGeneral (((p.maxVal : ℝ) - (p.minVal : ℝ)) * (p.svA : ℝ))
          ++ " " ++ p.unit)
      else (some mv, "")
    | none => (none, "")
  | .A_TWO_TO_THE_B =>
    match parsed with
    | some s0 =>
      let xbv := (p.svA : ℝ) * exp2 ((p.svB : ℝ) * naturalBaseVal)
      let rv := xbv + (s0 : ℝ)
      if rv < 0 then (none, "")
      else if rv = 0 then (none, "")
      else
        let r := Real.logb 2 (rv / (p.svA : ℝ)) / (p.svB : ℝ)
        let rg := (p.maxVal : ℝ) - (p.minVal : ℝ)
        if r < -rg ∨ r > rg then (none, "")
        else (some (r - naturalBaseVal), "")
    | none => (none, "")
  | _ => (none, "")

/-! Concrete descriptors used as witnesses and counterexamples. -/

/-- An `INT` descriptor with non-integer bounds `[1/2, 5/2]`. -/
def pmIntHalf : ParamMetaData := (defaultPMD.withType .INT).withRange (1/2) (5/2)

/-- An `INT` descriptor with bounds `[0, 100]`. -/
def pmInt100 : ParamMetaData := (defaultPMD.withType .INT).withRange 0 100

/-- An `INT` descriptor with bounds `[0, 7]`. -/
def pmInt07 : ParamMetaData := (defaultPMD.withType .INT).withRange 0 7

/-- The `asPercent` preset applied to a default descriptor. -/
def pmPercent : ParamMetaData := defaultPMD.asPercent

/-- The `asPercentBipolar` preset applied to a default descriptor. -/
def pmPercentBipolar : ParamMetaData := defaultPMD.asPercentBipolar

/-- The `asAudibleFrequency` preset applied to a default descriptor. -/
def pmAudible : ParamMetaData := defaultPMD.asAudibleFrequency

/-- A descriptor with an inverted range `[1, 0]` and a custom minimum
display string. -/
def pmInverted : ParamMetaData := (defaultPMD.withRange 1 0).withCustomMinDisplay ("X")

/-- The display transform inverse that `valueFromString` applies to a parsed
number: `r / svA` for `LINEAR`, `(log2(r / svA) - svC) / svB` for
`A_TWO_TO_THE_B`. -/
noncomputable def ParamMetaData.displayInverse (p : ParamMetaData) (r : ℚ) : ℝ :=
  match p.displayScale with
  | .LINEAR => (r : ℝ) / (p.svA : ℝ)
  | .A_TWO_TO_THE_B => (Real.logb 2 ((r : ℝ) / (p.svA : ℝ)) - (p.svC : ℝ)) / (p.svB : ℝ)
  | _ => 0

/-! Helper lemmas. -/

theorem cppClamp_of_lt {x lo hi : ℚ} (h : x < lo) : cppClamp x lo hi = lo := by
  unfold cppClamp
  rw [if_pos h]

theorem cppClamp_of_gt {x lo hi : ℚ} (h1 : ¬ x < lo) (h2 : hi < x) : cppClamp x lo hi = hi := by
  unfold cppClamp
  rw [if_neg h1, if_pos h2]

theorem cppClamp_eq_self {x lo hi : ℚ} (h1 : lo ≤ x) (h2 : x ≤ hi) : cppClamp x lo hi = x := by
  unfold cppClamp
  rw [if_neg (not_lt.mpr h1), if_neg (not_lt.mpr h2)]

theorem cppClamp_idem {x lo hi : ℚ} (h : lo ≤ hi) :
    cppClamp (cppClamp x lo hi) lo hi = cppClamp x lo hi := by
  unfold cppClamp
  split_ifs with h1 h2 h3 h4 h5 <;> first | rfl | linarith

theorem scaledOf_nonneg_eq {x : ℝ} {d : ℕ} {n : ℤ} (h0 : 0 ≤ x)
    (h1 : (n : ℝ) ≤ x * 10 ^ d + 1/2) (h2 : x * 10 ^ d + 1/2 < n + 1) :
    scaledOf x d = n := by
  unfold scaledOf
  rw [if_pos h0, Int.floor_eq_iff]
  exact ⟨h1, by exact_mod_cast h2⟩

theorem scaledOf_neg_eq {x : ℝ} {d : ℕ} {n : ℤ} (h0 : ¬ 0 ≤ x)
    (h1 : (n : ℝ) ≤ -x * 10 ^ d + 1/2) (h2 : -x * 10 ^ d + 1/2 < n + 1) :
    scaledOf x d = -n := by
  unfold scaledOf
  rw [if_neg h0, neg_inj, Int.floor_eq_iff]
  exact ⟨h1, by exact_mod_cast h2⟩

theorem fmtFixed_eq_of_scaled {x : ℝ} {d : ℕ} {n : ℤ} (h : scaledOf x d = n) :
    fmtFixed x d = renderFixed n d := by
  unfold fmtFixed
  rw [h]

theorem cppIntR_nonneg_eq {x : ℝ} {n : ℤ} (h0 : 0 ≤ x) (h1 : (n : ℝ) ≤ x) (h2 : x < n + 1) :
    cppIntR x = n := by
  unfold cppIntR
  rw [if_pos h0, Int.floor_eq_iff]
  exact ⟨h1, by exact_mod_cast h2⟩

theorem cppIntR_neg_eq {x : ℝ} {n : ℤ} (h0 : ¬ 0 ≤ x) (h1 : (n : ℝ) - 1 < x) (h2 : x ≤ n) :
    cppIntR x = n := by
  unfold cppIntR
  rw [if_neg h0, Int.ceil_eq_iff]
  constructor
  · exact_mod_cast h1
  · exact h2

theorem exp2_natCast (n : ℕ) : exp2 (n : ℝ) = (2 : ℝ) ^ n := Real.rpow_natCast 2 n

theorem exp2_zero : exp2 0 = 1 := Real.rpow_zero 2

theorem exp2_one : exp2 1 = 2 := Real.rpow_one 2

theorem exp2_two : exp2 2 = 4 := by
  rw [show (2 : ℝ) = ((2 : ℕ) : ℝ) by norm_num, exp2_natCast]
  norm_num

theorem exp2_three : exp2 3 = 8 := by
  rw [show (3 : ℝ) = ((3 : ℕ) : ℝ) by norm_num, exp2_natCast]
  norm_num

theorem exp2_five : exp2 5 = 32 := by
  rw [show (5 : ℝ) = ((5 : ℕ) : ℝ) by norm_num, exp2_natCast]
  norm_num

theorem exp2_twelve : exp2 12 = 4096 := by
  rw [show (12 : ℝ) = ((12 : ℕ) : ℝ) by norm_num, exp2_natCast]
  norm_num

theorem logb_two_exp2 (x : ℝ) : Real.logb 2 (exp2 x) = x :=
  Real.logb_rpow (by norm_num) (by norm_num)

/-! Claim theorems. -/

/-- C1: on a `kind == None` descriptor the value operations do NOT fail:
`naturalToNormalized01` silently produces `0` (its `assert(false)` is compiled
out of release builds and `v` stays `0`), and `valueToString` falls through
the `BOOL`/`INT` guards into the `LINEAR` case and silently returns the
formatted string `"0.00 "`.  This exhibits the code bug the claim describes:
the claim (and the code's own intent for `NONE`) requires both operations to
fail. -/
theorem c1_none_descriptor_operations_succeed :
    (defaultPMD.withType .NONE).naturalToNormalized01 7 = 0 ∧
    (defaultPMD.withType .NONE).valueToString (1/2) {} = some ("0.00 ") := by
  constructor
  · norm_num [defaultPMD, ParamMetaData.withType, ParamMetaData.naturalToNormalized01,
      cppClamp]
  · have hs : scaledOf (0 : ℝ) 2 = 0 :=
      scaledOf_nonneg_eq (by norm_num) (by norm_num) (by norm_num)
    unfold ParamMetaData.valueToString
    norm_num [defaultPMD, ParamMetaData.withType, dpOf]
    rw [fmtFixed_eq_of_scaled hs]
    rfl

/-- C2: `FeatureState::withAbsolute` assigns to `*this` instead of to the
copy `res`, so the returned copy keeps the old `isAbsolute` and the receiver
is mutated — the exact opposite of the claim (and of the three sibling
`with...` functions).  Evaluated at a default `FeatureState` and `e = true`:
the returned copy has `isAbsolute = false`, the receiver ends with
`isAbsolute = true`. -/
theorem c2_withAbsolute_mutates_receiver :
    (FeatureState.withAbsolute {} true).2.isAbsolute = false ∧
    (FeatureState.withAbsolute {} true).1.isAbsolute = true :=
  ⟨rfl, rfl⟩

/-- C3 counterexample: an `INT` descriptor with the non-integer bounds
`[1/2, 5/2]` (`minVal ≠ maxVal`) and the integer `v = 1` inside the range:
the round trip returns `3/2`, not `1`, so the claim as stated fails. -/
theorem c3_roundtrip_fails_for_noninteger_bounds :
    pmIntHalf.type = PType.INT ∧
    pmIntHalf.minVal ≠ pmIntHalf.maxVal ∧
    pmIntHalf.minVal ≤ 1 ∧ (1 : ℚ) ≤ pmIntHalf.maxVal ∧
    pmIntHalf.normalized01ToNatural (pmIntHalf.naturalToNormalized01 1) ≠ 1 := by
  have hv : pmIntHalf.naturalToNormalized01 1 = 101/400 := by
    norm_num [pmIntHalf, defaultPMD, ParamMetaData.withType, ParamMetaData.withRange,
      ParamMetaData.naturalToNormalized01, cppClamp]
  refine ⟨rfl, ?_, ?_, ?_, ?_⟩
  · norm_num [pmIntHalf, defaultPMD, ParamMetaData.withType, ParamMetaData.withRange]
  · norm_num [pmIntHalf, defaultPMD, ParamMetaData.withType, ParamMetaData.withRange]
  · norm_num [pmIntHalf, defaultPMD, ParamMetaData.withType, ParamMetaData.withRange]
  · rw [hv]
    norm_num [pmIntHalf, defaultPMD, ParamMetaData.withType, ParamMetaData.withRange,
      ParamMetaData.normalized01ToNatural, cppClamp, cppTruncQ, Int.floor_one,
      Int.floor_eq_zero_iff]

/-- C3 amended: for an `INT` descriptor whose bounds are (distinct) integers,
`naturalToNormalized01` maps `minVal` to exactly `0.005` and `maxVal` to
exactly `0.995`, and the normalized round trip recovers every integer in
range exactly. -/
theorem c3_int_mapping (p : ParamMetaData) (m M : ℤ) (hT : p.type = PType.INT)
    (hm : p.minVal = (m : ℚ)) (hM : p.maxVal = (M : ℚ)) (hne : m ≠ M) :
    p.naturalToNormalized01 p.minVal = 0.005 ∧
    p.naturalToNormalized01 p.maxVal = 0.995 ∧
    ∀ v : ℤ, p.minVal ≤ (v : ℚ) → (v : ℚ) ≤ p.maxVal →
      p.normalized01ToNatural (p.naturalToNormalized01 (v : ℚ)) = (v : ℚ) := by
  have hD : (M : ℚ) - (m : ℚ) ≠ 0 :=
    sub_ne_zero.mpr (by exact_mod_cast hne.symm)
  refine ⟨?_, ?_, ?_⟩
  · unfold ParamMetaData.naturalToNormalized01
    rw [hT]
    simp only [hm, hM, sub_self, mul_zero, zero_div, add_zero]
    exact cppClamp_eq_self (by norm_num) (by norm_num)
  · unfold ParamMetaData.naturalToNormalized01
    rw [hT]
    simp only [hm, hM]
    rw [mul_div_assoc, div_self hD]
    norm_num
    exact cppClamp_eq_self (by norm_num) (by norm_num)
  · intro v hv1 hv2
    rw [hm] at hv1
    rw [hM] at hv2
    have hmM : (m : ℚ) < (M : ℚ) := by
      rcases lt_or_eq_of_le (le_trans hv1 hv2) with h | h
      · exact h
      · exact absurd (by exact_mod_cast h) hne
    have hfrac0 : (0 : ℚ) ≤ ((v : ℚ) - m) / ((M : ℚ) - m) :=
      div_nonneg (by linarith) (by linarith)
    have hfrac1 : ((v : ℚ) - m) / ((M : ℚ) - m) ≤ 1 :=
      (div_le_one (by linarith)).mpr (by linarith)
    have hT0 : (0 : ℚ) ≤ 0.005 + 0.99 * (((v : ℚ) - m) / ((M : ℚ) - m)) := by linarith
    have hT1 : 0.005 + 0.99 * (((v : ℚ) - m) / ((M : ℚ) - m)) ≤ 1 := by linarith
    unfold ParamMetaData.naturalToNormalized01 ParamMetaData.normalized01ToNatural
    rw [hT]
    simp only [hm, hM]
    rw [mul_div_assoc, cppClamp_eq_self hT0 hT1, cppClamp_eq_self hT0 hT1]
    have hsimp : (1 / 0.99) * ((0.005 + 0.99 * (((v : ℚ) - m) / ((M : ℚ) - m))) - 0.005) *
        ((M : ℚ) - m) + 0.5 = ((v - m : ℤ) : ℚ) + 1/2 := by
      field_simp
      ring
    rw [hsimp]
    unfold cppTruncQ
    rw [if_pos (by push_cast; linarith), Int.floor_int_add]
    have : ⌊(1/2 : ℚ)⌋ = 0 := by
      rw [Int.floor_eq_zero_iff]
      constructor <;> norm_num
    rw [this]
    push_cast
    ring

/-- C3 witness: the amended theorem applied to the `INT` descriptor with
range `[0, 7]` at `v = 3`. -/
theorem c3_int_mapping_witness :
    pmInt07.normalized01ToNatural (pmInt07.naturalToNormalized01 ((3 : ℤ) : ℚ)) =
      ((3 : ℤ) : ℚ) :=
  (c3_int_mapping pmInt07 0 7 rfl
      (by norm_num [pmInt07, defaultPMD, ParamMetaData.withType, ParamMetaData.withRange])
      (by norm_num [pmInt07, defaultPMD, ParamMetaData.withType, ParamMetaData.withRange])
      (by decide)).2.2 3
    (by norm_num [pmInt07, defaultPMD, ParamMetaData.withType, ParamMetaData.withRange])
    (by norm_num [pmInt07, defaultPMD, ParamMetaData.withType, ParamMetaData.withRange])

/-- C4 counterexample: for the `INT` descriptor with range `[0, 100]` the
input is NOT clamped before transforming: at the natural value `101` (above
`maxVal`) the computed normalized value is `1` (the output clamp), while the
clamped input `100` yields `0.995` — the claim says the two must agree. -/
theorem c4_int_input_clamp_fails :
    pmInt100.naturalToNormalized01 101 ≠
      pmInt100.naturalToNormalized01 (cppClamp 101 pmInt100.minVal pmInt100.maxVal) := by
  have hc : cppClamp 101 pmInt100.minVal pmInt100.maxVal = 100 := by
    norm_num [cppClamp, pmInt100, defaultPMD, ParamMetaData.withType, ParamMetaData.withRange]
  rw [hc]
  norm_num [pmInt100, defaultPMD, ParamMetaData.withType, ParamMetaData.withRange,
    ParamMetaData.naturalToNormalized01, cppClamp]

/-- C4 amended: `naturalToNormalized01` clamps its OUTPUT to `[0,1]`, which
agrees with clamping the input for `Float` (with `minVal < maxVal`) and
`Bool` descriptors but not for `Int` ones; `normalized01ToNatural` does clamp
its input to `[0,1]` first. -/
theorem c4_clamping :
    (∀ (p : ParamMetaData) (x : ℚ), p.type = PType.FLOAT → p.minVal < p.maxVal →
      p.naturalToNormalized01 x = p.naturalToNormalized01 (cppClamp x p.minVal p.maxVal)) ∧
    (∀ (p : ParamMetaData) (x : ℚ), p.type = PType.BOOL → p.minVal = 0 → p.maxVal = 1 →
      p.naturalToNormalized01 x = p.naturalToNormalized01 (cppClamp x p.minVal p.maxVal)) ∧
    (∀ (p : ParamMetaData) (x : ℚ),
      p.normalized01ToNatural x = p.normalized01ToNatural (cppClamp x 0 1)) := by
  refine ⟨?_, ?_, ?_⟩
  · intro p x hT hlt
    unfold ParamMetaData.naturalToNormalized01
    rw [hT]
    simp only
    by_cases h1 : x < p.minVal
    · rw [cppClamp_of_lt h1]
      have hL : (x - p.minVal) / (p.maxVal - p.minVal) < 0 :=
        div_neg_of_neg_of_pos (by linarith) (by linarith)
      rw [cppClamp_of_lt hL, sub_self, zero_div,
          cppClamp_eq_self (le_refl 0) (by norm_num)]
    · by_cases h2 : p.maxVal < x
      · rw [cppClamp_of_gt h1 h2]
        have hG : 1 < (x - p.minVal) / (p.maxVal - p.minVal) :=
          (one_lt_div (by linarith)).mpr (by linarith)
        rw [cppClamp_of_gt (by linarith) hG, div_self (by linarith),
            cppClamp_eq_self (by norm_num) (le_refl 1)]
      · rw [cppClamp_eq_self (not_lt.mp h1) (not_lt.mp h2)]
  · intro p x hT hmn hmx
    unfold ParamMetaData.naturalToNormalized01
    rw [hT, hmn, hmx]
    simp only
    by_cases h1 : x < 0
    · rw [cppClamp_of_lt h1,
          if_neg (show ¬ x > 0.5 by rw [not_lt]; linarith),
          if_neg (show ¬ (0 : ℚ) > 0.5 by norm_num)]
    · by_cases h2 : (1 : ℚ) < x
      · rw [cppClamp_of_gt h1 h2,
          if_pos (show x > 0.5 by linarith),
          if_pos (show (1 : ℚ) > 0.5 by norm_num)]
      · rw [cppClamp_eq_self (not_lt.mp h1) (not_lt.mp h2)]
  · intro p x
    unfold ParamMetaData.normalized01ToNatural
    rw [cppClamp_idem (by norm_num)]

/-- C4 witness: the amended theorem's `Float` part applied to the default
(`Float`, range `[0,1]`) descriptor at the out-of-range input `5`. -/
theorem c4_clamping_witness :
    defaultPMD.naturalToNormalized01 5 =
      defaultPMD.naturalToNormalized01 (cppClamp 5 defaultPMD.minVal defaultPMD.maxVal) :=
  c4_clamping.1 defaultPMD 5 rfl (by norm_num [defaultPMD])

/-- C8 counterexample: for the `asPercent` Linear descriptor, base `0` and
delta `0` (an up-delta that is non-negative), the bipolar summary takes the
minus-slash-plus form `"-\x2f+ 0.00 %"`, not the plus-slash-minus form the
claim requires for a non-negative up-delta: the source tests `du > 0`
strictly, so `du = 0` takes the other branch. -/
theorem c8_zero_delta_summary_minus_plus :
    ∃ md, pmPercent.modulationNaturalToString 0 0 true {} = some md ∧
      md.summary = "-/+ 0.00 %" ∧ (0 : ℝ) ≤ 0 ∧
      "-/+ 0.00 %" ≠ "+/- " ++ fmtFixed ((pmPercent.svA : ℝ) * 0) (dpOf pmPercent {}) ++ " "
        ++ pmPercent.unit := by
  have hf : fmtFixed (0 : ℝ) 2 = "0.00" := by
    rw [fmtFixed_eq_of_scaled (@scaledOf_nonneg_eq (0 : ℝ) 2 0 (le_refl 0) (by norm_num)
      (by norm_num))]
    rfl
  simp only [ParamMetaData.modulationNaturalToString]
  norm_num [pmPercent, ParamMetaData.asPercent, defaultPMD, ParamMetaData.withType,
    ParamMetaData.withRange, ParamMetaData.withDefault, ParamMetaData.withLinearScaleFormatting,
    ParamMetaData.withDecimalPlaces, dpOf]
  rw [hf]
  exact ⟨rfl, by decide⟩

/-- C8 amended: for a Float/Linear descriptor with the modulation-depth
precondition, the bipolar summary begins with the plus-slash-minus prefix
exactly when the up-delta is strictly positive, and with the
minus-slash-plus prefix when it is zero or negative. -/
theorem c8_summary_sign_strict (p : ParamMetaData) (hT : p.type = PType.FLOAT)
    (hDS : p.displayScale = DisplayScale.LINEAR) (base delta : ℝ) (fs : FeatureState)
    (_hpre : |delta| ≤ (p.maxVal : ℝ) - (p.minVal : ℝ)) :
    ∃ md, p.modulationNaturalToString base delta true fs = some md ∧
      (0 < delta → ∃ rest, md.summary = "+/- " ++ rest) ∧
      (delta ≤ 0 → ∃ rest, md.summary = "-/+ " ++ rest) := by
  simp only [ParamMetaData.modulationNaturalToString, hT, hDS, ne_eq, if_true, if_false,
    reduceCtorEq, not_false_iff, ite_false, ite_true]
  refine ⟨_, rfl, ?_, ?_⟩
  · intro hd
    rw [if_pos hd]
    exact ⟨_, rfl⟩
  · intro hd
    rw [if_neg (not_lt.mpr hd)]
    exact ⟨_, rfl⟩

/-- C8 witness: the amended theorem applied to the `asPercent` descriptor at
base `0`, delta `1/2`. -/
theorem c8_summary_sign_strict_witness :
    ∃ md, pmPercent.modulationNaturalToString 0 (1/2) true {} = some md ∧
      (0 < (1/2 : ℝ) → ∃ rest, md.summary = "+/- " ++ rest) ∧
      ((1/2 : ℝ) ≤ 0 → ∃ rest, md.summary = "-/+ " ++ rest) :=
  c8_summary_sign_strict pmPercent rfl rfl 0 (1/2) {}
    (by norm_num [pmPercent, ParamMetaData.asPercent, defaultPMD, ParamMetaData.withType,
      ParamMetaData.withRange, ParamMetaData.withDefault,
      ParamMetaData.withLinearScaleFormatting, ParamMetaData.withDecimalPlaces,
      abs_of_nonneg])

/-- C6 counterexample: for the `asAudibleFrequency` PowerOfTwo descriptor at
base `0`, delta `12`, the produced `valUp` is the UNtransformed natural value
`"12.00"` (not the transformed display value `"880.00"` the claim requires),
and `valDown` is `"-12.00"`, computed from `base - delta`, not from
`base + delta`. -/
theorem c6_poweroftwo_valupdown_untransformed :
    ∃ md, pmAudible.modulationNaturalToString 0 12 true {} = some md ∧
      md.valUp = "12.00" ∧ md.valDown = "-12.00" ∧
      fmtFixed ((pmAudible.svA : ℝ) * exp2 ((pmAudible.svB : ℝ) * ((0 : ℝ) + 12)))
        (dpOf pmAudible {}) = "880.00" ∧
      ("12.00" : String) ≠ "880.00" ∧ ("-12.00" : String) ≠ "12.00" := by
  have hup : fmtFixed (12 : ℝ) 2 = "12.00" := by
    rw [fmtFixed_eq_of_scaled (@scaledOf_nonneg_eq (12 : ℝ) 2 1200 (by norm_num) (by norm_num)
      (by norm_num))]
    rfl
  have hdn : fmtFixed (-12 : ℝ) 2 = "-12.00" := by
    rw [fmtFixed_eq_of_scaled (@scaledOf_neg_eq (-12 : ℝ) 2 1200 (by norm_num) (by norm_num)
      (by norm_num))]
    rfl
  have h880 : fmtFixed (880 : ℝ) 2 = "880.00" := by
    rw [fmtFixed_eq_of_scaled (@scaledOf_nonneg_eq (880 : ℝ) 2 88000 (by norm_num) (by norm_num)
      (by norm_num))]
    rfl
  have htrans : (pmAudible.svA : ℝ) * exp2 ((pmAudible.svB : ℝ) * ((0 : ℝ) + 12)) = 880 := by
    have harg : (pmAudible.svB : ℝ) * ((0 : ℝ) + 12) = 1 := by
      norm_num [pmAudible, ParamMetaData.asAudibleFrequency, ParamMetaData.withType,
        ParamMetaData.withRange, ParamMetaData.withDefault, defaultPMD,
        ParamMetaData.withSemitoneZeroAt400Formatting, ParamMetaData.withATwoToTheBFormatting,
        ParamMetaData.withATwoToTheBPlusCFormatting]
    rw [harg, exp2_one]
    norm_num [pmAudible, ParamMetaData.asAudibleFrequency, ParamMetaData.withType,
      ParamMetaData.withRange, ParamMetaData.withDefault, defaultPMD,
      ParamMetaData.withSemitoneZeroAt400Formatting, ParamMetaData.withATwoToTheBFormatting,
      ParamMetaData.withATwoToTheBPlusCFormatting]
  have hdp : dpOf pmAudible {} = 2 := rfl
  rw [hdp, htrans, h880]
  simp only [ParamMetaData.modulationNaturalToString]
  norm_num [pmAudible, ParamMetaData.asAudibleFrequency, ParamMetaData.withType,
    ParamMetaData.withRange, ParamMetaData.withDefault, defaultPMD,
    ParamMetaData.withSemitoneZeroAt400Formatting, ParamMetaData.withATwoToTheBFormatting,
    ParamMetaData.withATwoToTheBPlusCFormatting, dpOf]
  rw [hup, hdn]
  refine ⟨rfl, rfl, by decide, by decide⟩

/-- C6 amended: with bipolar display on a Float descriptor, for Linear scale
`valUp` and `valDown` both carry the display value `svA * (base + delta)`
(the down direction reuses the up direction), and for PowerOfTwo scale they
carry the UNtransformed natural endpoints `base + delta` and `base - delta`
respectively. -/
theorem c6_valUp_valDown_shape (p : ParamMetaData) (hT : p.type = PType.FLOAT)
    (base delta : ℝ) (fs : FeatureState) :
    (p.displayScale = DisplayScale.LINEAR →
      ∃ md, p.modulationNaturalToString base delta true fs = some md ∧
        md.valUp = fmtFixed ((p.svA : ℝ) * (base + delta)) (dpOf p fs) ∧
        md.valDown = fmtFixed ((p.svA : ℝ) * (base + delta)) (dpOf p fs)) ∧
    (p.displayScale = DisplayScale.A_TWO_TO_THE_B →
      ∃ md, p.modulationNaturalToString base delta true fs = some md ∧
        md.valUp = fmtFixed (base + delta) (dpOf p fs) ∧
        md.valDown = fmtFixed (base - delta) (dpOf p fs)) := by
  constructor
  · intro hDS
    simp only [ParamMetaData.modulationNaturalToString, hT, hDS, ne_eq, reduceCtorEq,
      not_false_iff, ite_false, ite_true, if_true, if_false]
    exact ⟨_, rfl, rfl, rfl⟩
  · intro hDS
    simp only [ParamMetaData.modulationNaturalToString, hT, hDS, ne_eq, reduceCtorEq,
      not_false_iff, ite_false, ite_true, if_true, if_false]
    exact ⟨_, rfl, rfl, rfl⟩

/-- C6 witness: the amended theorem's Linear part applied to the `asPercent`
descriptor at base `1/4`, delta `1/4`. -/
theorem c6_valUp_valDown_shape_witness :
    ∃ md, pmPercent.modulationNaturalToString (1/4) (1/4) true {} = some md ∧
      md.valUp = fmtFixed ((pmPercent.svA : ℝ) * ((1/4) + (1/4))) (dpOf pmPercent {}) ∧
      md.valDown = fmtFixed ((pmPercent.svA : ℝ) * ((1/4) + (1/4))) (dpOf pmPercent {}) :=
  (c6_valUp_valDown_shape pmPercent rfl (1/4) (1/4) {}).1 rfl

/-- For a Float descriptor on Linear or PowerOfTwo scale, `valueToString`
with default feature state always produces a string. -/
theorem valueToString_float_isSome (p : ParamMetaData) (hT : p.type = PType.FLOAT)
    (hDS : p.displayScale = DisplayScale.LINEAR ∨ p.displayScale = DisplayScale.A_TWO_TO_THE_B)
    (v : ℝ) : ∃ sv, p.valueToString v {} = some sv := by
  unfold ParamMetaData.valueToString
  rw [hT]
  simp only [reduceCtorEq, if_false]
  split_ifs <;> try exact ⟨_, rfl⟩
  all_goals rcases hDS with h | h <;> rw [h] <;> exact ⟨_, rfl⟩

/-- C5: for a Float descriptor on Linear or PowerOfTwo scale, and an input
text that matches neither custom boundary display, a parsed number whose
inverted value falls outside `[minVal, maxVal]` (including a non-positive
parse for PowerOfTwo, whose `log2` domain fails) yields no value with the
range message, a failed parse yields no value with the SAME range message,
and that message is built by formatting the two boundary values through
`valueToString`. -/
theorem c5_out_of_range_and_malformed_share_message (p : ParamMetaData)
    (hT : p.type = PType.FLOAT)
    (hDS : p.displayScale = DisplayScale.LINEAR ∨ p.displayScale = DisplayScale.A_TWO_TO_THE_B)
    (s : String)
    (hmin : ¬ (p.customMinDisplay ≠ "" ∧ s = p.customMinDisplay))
    (hmax : ¬ (p.customMaxDisplay ≠ "" ∧ s = p.customMaxDisplay)) :
    (∀ r : ℚ, ((p.displayScale = DisplayScale.A_TWO_TO_THE_B ∧ (r : ℝ) ≤ 0) ∨
        p.displayInverse r < (p.minVal : ℝ) ∨ p.displayInverse r > (p.maxVal : ℝ)) →
      p.valueFromString s (some r) = (none, p.rangeMsg)) ∧
    p.valueFromString s none = (none, p.rangeMsg) ∧
    ∃ sMin sMax, p.valueToString (p.minVal : ℝ) {} = some sMin ∧
      p.valueToString (p.maxVal : ℝ) {} = some sMax ∧
      p.rangeMsg = sMin ++ " < val < " ++ sMax := by
  refine ⟨?_, ?_, ?_⟩
  · intro r h
    unfold ParamMetaData.valueFromString
    rw [hT]
    simp only [reduceCtorEq, if_false]
    rw [if_neg hmin, if_neg hmax]
    rcases hDS with hds | hds <;> simp only [ParamMetaData.displayInverse, hds] at h ⊢
    · rcases h with ⟨habs, _⟩ | h
      · simp at habs
      · rw [if_pos h]
    · by_cases hr : (r : ℝ) < 0
      · rw [if_pos hr]
      · rw [if_neg hr]
        by_cases hr0 : (r : ℝ) = 0
        · rw [if_pos hr0]
        · rw [if_neg hr0]
          rcases h with ⟨_, hle⟩ | h
          · exact absurd (le_antisymm hle (not_lt.mp hr)) hr0
          · rw [if_pos h]
  · unfold ParamMetaData.valueFromString
    rw [hT]
    simp only [reduceCtorEq, if_false]
    rw [if_neg hmin, if_neg hmax]
    rcases hDS with hds | hds <;> rw [hds]
  · obtain ⟨sMin, hMin⟩ := valueToString_float_isSome p hT hDS (p.minVal : ℝ)
    obtain ⟨sMax, hMax⟩ := valueToString_float_isSome p hT hDS (p.maxVal : ℝ)
    refine ⟨sMin, sMax, hMin, hMax, ?_⟩
    unfold ParamMetaData.rangeMsg
    rw [hMin, hMax]

/-- C5 witness: the theorem applied to the `asPercentBipolar` descriptor with
the text `"500 %"` parsing to `500`, whose inverted value `5` exceeds
`maxVal = 1`. -/
theorem c5_out_of_range_witness :
    pmPercentBipolar.valueFromString ("500 %") (some 500) =
      (none, pmPercentBipolar.rangeMsg) :=
  (c5_out_of_range_and_malformed_share_message pmPercentBipolar rfl (Or.inl rfl) "500 %"
    (by simp [pmPercentBipolar, ParamMetaData.asPercentBipolar, defaultPMD,
      ParamMetaData.withType, ParamMetaData.withRange, ParamMetaData.withDefault,
      ParamMetaData.withLinearScaleFormatting, ParamMetaData.withDecimalPlaces])
    (by simp [pmPercentBipolar, ParamMetaData.asPercentBipolar, defaultPMD,
      ParamMetaData.withType, ParamMetaData.withRange, ParamMetaData.withDefault,
      ParamMetaData.withLinearScaleFormatting, ParamMetaData.withDecimalPlaces])).1 500
    (Or.inr (Or.inr (by norm_num [ParamMetaData.displayInverse, pmPercentBipolar,
      ParamMetaData.asPercentBipolar, defaultPMD, ParamMetaData.withType,
      ParamMetaData.withRange, ParamMetaData.withDefault,
      ParamMetaData.withLinearScaleFormatting, ParamMetaData.withDecimalPlaces])))

/-- C10 counterexample: a descriptor configured with the inverted range
`minVal = 1, maxVal = 0` and custom minimum display `"X"`: `valueFromString`
on `"X"` returns the value `1`, which does not lie in the (empty) interval
`[minVal, maxVal] = [1, 0]`, so the claim fails as stated for every
descriptor. -/
theorem c10_custom_string_outside_inverted_range :
    (pmInverted.valueFromString ("X") none).1 = some ((1 : ℚ) : ℝ) ∧
    ¬ ((pmInverted.minVal : ℝ) ≤ ((1 : ℚ) : ℝ) ∧
       ((1 : ℚ) : ℝ) ≤ (pmInverted.maxVal : ℝ)) := by
  constructor
  · unfold ParamMetaData.valueFromString
    norm_num [pmInverted, defaultPMD, ParamMetaData.withRange,
      ParamMetaData.withCustomMinDisplay, cppClamp]
    rfl
  · norm_num [pmInverted, defaultPMD, ParamMetaData.withRange,
      ParamMetaData.withCustomMinDisplay]

/-- C10 amended: for every descriptor whose bounds satisfy
`minVal ≤ maxVal`, whenever `valueFromString` returns a value it lies in
`[minVal, maxVal]`: the custom boundary strings map to the boundary values
and every parsed result is range-checked before being returned. -/
theorem c10_returned_values_in_range (p : ParamMetaData) (hmm : p.minVal ≤ p.maxVal)
    (s : String) (parsed : Option ℚ) (v : ℝ)
    (h : (p.valueFromString s parsed).1 = some v) :
    (p.minVal : ℝ) ≤ v ∧ v ≤ (p.maxVal : ℝ) := by
  have hmmR : (p.minVal : ℝ) ≤ (p.maxVal : ℝ) := by exact_mod_cast hmm
  unfold ParamMetaData.valueFromString at h
  split_ifs at h with h1 h2 h3 h4
  · simp only [Prod.fst, Option.some_inj] at h
    rw [← h]
    exact ⟨le_refl _, hmmR⟩
  · simp only [Prod.fst, Option.some_inj] at h
    rw [← h]
    exact ⟨hmmR, le_refl _⟩
  · cases hds : p.displayScale <;> rw [hds] at h
    · cases parsed with
      | none => simp at h
      | some r0 =>
        simp only at h
        split_ifs at h with hrange
        push_neg at hrange
        have hv : (r0 : ℝ) / (p.svA : ℝ) = v := by simpa using h
        rw [← hv]
        exact hrange
    · cases parsed with
      | none => simp at h
      | some r0 =>
        simp only at h
        split_ifs at h with hneg hzero hrange
        push_neg at hrange
        have hv : (Real.logb 2 ((r0 : ℝ) / (p.svA : ℝ)) - (p.svC : ℝ)) / (p.svB : ℝ) = v := by
          simpa using h
        rw [← hv]
        exact hrange
    · simp at h
    · simp at h
    · simp at h

/-- C10 witness: the amended theorem applied to the `asPercent` descriptor
with the text `"50 %"` parsing to `50`, giving the in-range value `1/2`. -/
theorem c10_returned_values_in_range_witness :
    (pmPercent.minVal : ℝ) ≤ (1/2 : ℝ) ∧ (1/2 : ℝ) ≤ (pmPercent.maxVal : ℝ) :=
  c10_returned_values_in_range pmPercent
    (by norm_num [pmPercent, ParamMetaData.asPercent, defaultPMD, ParamMetaData.withType,
      ParamMetaData.withRange, ParamMetaData.withDefault,
      ParamMetaData.withLinearScaleFormatting, ParamMetaData.withDecimalPlaces, cppClamp])
    "50 %" (some 50) (1/2)
    (by unfold ParamMetaData.valueFromString
        norm_num [pmPercent, ParamMetaData.asPercent, defaultPMD, ParamMetaData.withType,
          ParamMetaData.withRange, ParamMetaData.withDefault,
          ParamMetaData.withLinearScaleFormatting, ParamMetaData.withDecimalPlaces, cppClamp]
        rfl)

/-- C9 counterexample: `temposyncNotation(-2)` is `"1/8 note"`, an
eighth-note string, not a quarter-note-family string: the encoder's
convention makes `f = -2` one eighth of a whole note (duration is
`2^(f-1)` whole notes), while the claim reads `-2` as a quarter note. -/
theorem c9_minus_two_is_eighth_note :
    defaultPMD.temposyncNotation (-2) = "1/8 note" ∧
    "1/8 note" ∉ (["1/4 note", "1/4 triplet", "1/4 dotted", "1/2 triplet"] : List String) := by
  have hInt : cppIntR (-2 : ℝ) = -2 :=
    cppIntR_neg_eq (by norm_num) (by norm_num) (by norm_num)
  have h8 : cppIntR (8 : ℝ) = 8 :=
    cppIntR_nonneg_eq (by norm_num) (by norm_num) (by norm_num)
  constructor
  · unfold ParamMetaData.temposyncNotation
    rw [hInt]
    norm_num [exp2_zero, exp2_three, h8]
    decide
  · decide

/-- C9 amended: the notation encoder is a pure function whose input is one
plus the log2 of the duration in whole notes (duration `2^(f-1)` whole
notes): `-1` yields the quarter-note string and `-2` the eighth-note
string. -/
theorem c9_notation_offset_convention :
    defaultPMD.temposyncNotation (-1) = "1/4 note" ∧
    defaultPMD.temposyncNotation (-2) = "1/8 note" := by
  have hIntOne : cppIntR (-1 : ℝ) = -1 :=
    cppIntR_neg_eq (by norm_num) (by norm_num) (by norm_num)
  have hIntTwo : cppIntR (-2 : ℝ) = -2 :=
    cppIntR_neg_eq (by norm_num) (by norm_num) (by norm_num)
  have h4 : cppIntR (4 : ℝ) = 4 :=
    cppIntR_nonneg_eq (by norm_num) (by norm_num) (by norm_num)
  have h8 : cppIntR (8 : ℝ) = 8 :=
    cppIntR_nonneg_eq (by norm_num) (by norm_num) (by norm_num)
  constructor
  · unfold ParamMetaData.temposyncNotation
    rw [hIntOne]
    norm_num [exp2_zero, exp2_two, h4]
    decide
  · unfold ParamMetaData.temposyncNotation
    rw [hIntTwo]
    norm_num [exp2_zero, exp2_three, h8]
    decide

/-- C7 amended: for a PowerOfTwo descriptor and a parsed delta text,
`modulationNaturalFromString` returns no value exactly when the resulting
absolute display value `svA * 2^(svB * base) + mv` is not positive or when
the recovered absolute natural POSITION `log2(rv / svA) / svB` (not the
returned delta) exceeds `maxVal - minVal` in magnitude; otherwise it returns
that position minus the base. -/
theorem c7_a2b_depth_parse (p : ParamMetaData)
    (hDS : p.displayScale = DisplayScale.A_TWO_TO_THE_B) (base : ℝ) (s0 : ℚ) :
    ((p.modulationNaturalFromString (some s0) base).1 = none ↔
      ((p.svA : ℝ) * exp2 ((p.svB : ℝ) * base) + (s0 : ℝ) ≤ 0 ∨
       |Real.logb 2 (((p.svA : ℝ) * exp2 ((p.svB : ℝ) * base) + (s0 : ℝ)) / (p.svA : ℝ)) /
         (p.svB : ℝ)| > (p.maxVal : ℝ) - (p.minVal : ℝ))) ∧
    (0 < (p.svA : ℝ) * exp2 ((p.svB : ℝ) * base) + (s0 : ℝ) →
     |Real.logb 2 (((p.svA : ℝ) * exp2 ((p.svB : ℝ) * base) + (s0 : ℝ)) / (p.svA : ℝ)) /
       (p.svB : ℝ)| ≤ (p.maxVal : ℝ) - (p.minVal : ℝ) →
     (p.modulationNaturalFromString (some s0) base).1 =
       some (Real.logb 2 (((p.svA : ℝ) * exp2 ((p.svB : ℝ) * base) + (s0 : ℝ)) / (p.svA : ℝ)) /
         (p.svB : ℝ) - base)) := by
  unfold ParamMetaData.modulationNaturalFromString
  rw [hDS]
  simp only []
  constructor
  · by_cases hneg : (p.svA : ℝ) * exp2 ((p.svB : ℝ) * base) + (s0 : ℝ) < 0
    · rw [if_pos hneg]
      simp only [true_iff]
      exact Or.inl hneg.le
    · rw [if_neg hneg]
      by_cases hzero : (p.svA : ℝ) * exp2 ((p.svB : ℝ) * base) + (s0 : ℝ) = 0
      · rw [if_pos hzero]
        simp only [true_iff]
        exact Or.inl hzero.le
      · rw [if_neg hzero]
        have hpos : ¬ ((p.svA : ℝ) * exp2 ((p.svB : ℝ) * base) + (s0 : ℝ) ≤ 0) :=
          fun hc => hzero (le_antisymm hc (not_lt.mp hneg))
        by_cases hrange : Real.logb 2 (((p.svA : ℝ) * exp2 ((p.svB : ℝ) * base) + (s0 : ℝ)) /
            (p.svA : ℝ)) / (p.svB : ℝ) < -((p.maxVal : ℝ) - (p.minVal : ℝ)) ∨
            Real.logb 2 (((p.svA : ℝ) * exp2 ((p.svB : ℝ) * base) + (s0 : ℝ)) / (p.svA : ℝ)) /
            (p.svB : ℝ) > (p.maxVal : ℝ) - (p.minVal : ℝ)
        · rw [if_pos hrange]
          simp only [true_iff]
          refine Or.inr ?_
          rcases hrange with hlt | hgt
          · exact lt_abs.mpr (Or.inr (by linarith))
          · exact lt_abs.mpr (Or.inl hgt)
        · rw [if_neg hrange]
          simp only [reduceCtorEq, false_iff, not_or]
          push_neg at hrange
          constructor
          · exact hpos
          · rw [not_lt, abs_le]
            constructor
            · linarith [hrange.1]
            · exact hrange.2
  · intro hpos hrange
    rw [if_neg (not_lt.mpr hpos.le), if_neg (ne_of_gt hpos)]
    rw [abs_le] at hrange
    rw [if_neg]
    push_neg
    constructor
    · linarith [hrange.1]
    · exact hrange.2

/-- C7 witness: the amended theorem applied to the `asAudibleFrequency`
descriptor at base `0` with parsed delta `440` Hz: the display value is
`880`, the recovered position is `12` semitones, inside the depth range, so
the returned delta is `12`. -/
theorem c7_a2b_depth_parse_witness :
    (pmAudible.modulationNaturalFromString (some 440) 0).1 =
      some (Real.logb 2 (((pmAudible.svA : ℝ) * exp2 ((pmAudible.svB : ℝ) * 0) + ((440 : ℚ) : ℝ))
        / (pmAudible.svA : ℝ)) / (pmAudible.svB : ℝ) - 0) := by
  have hA : (pmAudible.svA : ℝ) = 440 := by
    norm_num [pmAudible, ParamMetaData.asAudibleFrequency, ParamMetaData.withType,
      ParamMetaData.withRange, ParamMetaData.withDefault, defaultPMD,
      ParamMetaData.withSemitoneZeroAt400Formatting, ParamMetaData.withATwoToTheBFormatting,
      ParamMetaData.withATwoToTheBPlusCFormatting]
  have hB : (pmAudible.svB : ℝ) = 1/12 := by
    norm_num [pmAudible, ParamMetaData.asAudibleFrequency, ParamMetaData.withType,
      ParamMetaData.withRange, ParamMetaData.withDefault, defaultPMD,
      ParamMetaData.withSemitoneZeroAt400Formatting, ParamMetaData.withATwoToTheBFormatting,
      ParamMetaData.withATwoToTheBPlusCFormatting]
  have hMin : (pmAudible.minVal : ℝ) = -60 := by
    norm_num [pmAudible, ParamMetaData.asAudibleFrequency, ParamMetaData.withType,
      ParamMetaData.withRange, ParamMetaData.withDefault, defaultPMD,
      ParamMetaData.withSemitoneZeroAt400Formatting, ParamMetaData.withATwoToTheBFormatting,
      ParamMetaData.withATwoToTheBPlusCFormatting, cppClamp]
  have hMax : (pmAudible.maxVal : ℝ) = 70 := by
    norm_num [pmAudible, ParamMetaData.asAudibleFrequency, ParamMetaData.withType,
      ParamMetaData.withRange, ParamMetaData.withDefault, defaultPMD,
      ParamMetaData.withSemitoneZeroAt400Formatting, ParamMetaData.withATwoToTheBFormatting,
      ParamMetaData.withATwoToTheBPlusCFormatting, cppClamp]
  have hrv : (pmAudible.svA : ℝ) * exp2 ((pmAudible.svB : ℝ) * 0) + ((440 : ℚ) : ℝ) = 880 := by
    rw [hA, hB]
    norm_num [exp2_zero]
  have hr : Real.logb 2 (((pmAudible.svA : ℝ) * exp2 ((pmAudible.svB : ℝ) * 0) +
      ((440 : ℚ) : ℝ)) / (pmAudible.svA : ℝ)) / (pmAudible.svB : ℝ) = 12 := by
    rw [hrv, hA, hB]
    rw [show (880 : ℝ) / 440 = exp2 1 by rw [exp2_one]; norm_num]
    rw [logb_two_exp2]
    norm_num
  exact (c7_a2b_depth_parse pmAudible rfl 0 440).2
    (by rw [hrv]; norm_num)
    (by rw [hr, hMin, hMax]; norm_num)

/-- C7 counterexample: for the `asAudibleFrequency` descriptor at base `60`
with parsed delta `1788160` Hz, the display value `1802240` is positive and
the resulting natural delta is `84`, whose magnitude is well inside
`maxVal - minVal = 130`, yet the call returns no value: the range check is
applied to the recovered absolute position `144`, not to the delta, so the
claim's success condition is violated. -/
theorem c7_returns_none_despite_small_delta :
    pmAudible.modulationNaturalFromString (some 1788160) 60 = (none, "") ∧
    Real.logb 2 (((pmAudible.svA : ℝ) * exp2 ((pmAudible.svB : ℝ) * 60) + ((1788160 : ℚ) : ℝ))
      / (pmAudible.svA : ℝ)) / (pmAudible.svB : ℝ) - 60 = 84 ∧
    |(84 : ℝ)| ≤ (pmAudible.maxVal : ℝ) - (pmAudible.minVal : ℝ) ∧
    (0 : ℝ) < (pmAudible.svA : ℝ) * exp2 ((pmAudible.svB : ℝ) * 60) + ((1788160 : ℚ) : ℝ) := by
  have hA : (pmAudible.svA : ℝ) = 440 := by
    norm_num [pmAudible, ParamMetaData.asAudibleFrequency, ParamMetaData.withType,
      ParamMetaData.withRange, ParamMetaData.withDefault, defaultPMD,
      ParamMetaData.withSemitoneZeroAt400Formatting, ParamMetaData.withATwoToTheBFormatting,
      ParamMetaData.withATwoToTheBPlusCFormatting]
  have hB : (pmAudible.svB : ℝ) = 1/12 := by
    norm_num [pmAudible, ParamMetaData.asAudibleFrequency, ParamMetaData.withType,
      ParamMetaData.withRange, ParamMetaData.withDefault, defaultPMD,
      ParamMetaData.withSemitoneZeroAt400Formatting, ParamMetaData.withATwoToTheBFormatting,
      ParamMetaData.withATwoToTheBPlusCFormatting]
  have hMin : (pmAudible.minVal : ℝ) = -60 := by
    norm_num [pmAudible, ParamMetaData.asAudibleFrequency, ParamMetaData.withType,
      ParamMetaData.withRange, ParamMetaData.withDefault, defaultPMD,
      ParamMetaData.withSemitoneZeroAt400Formatting, ParamMetaData.withATwoToTheBFormatting,
      ParamMetaData.withATwoToTheBPlusCFormatting, cppClamp]
  have hMax : (pmAudible.maxVal : ℝ) = 70 := by
    norm_num [pmAudible, ParamMetaData.asAudibleFrequency, ParamMetaData.withType,
      ParamMetaData.withRange, ParamMetaData.withDefault, defaultPMD,
      ParamMetaData.withSemitoneZeroAt400Formatting, ParamMetaData.withATwoToTheBFormatting,
      ParamMetaData.withATwoToTheBPlusCFormatting, cppClamp]
  have hrv : (pmAudible.svA : ℝ) * exp2 ((pmAudible.svB : ℝ) * 60) + ((1788160 : ℚ) : ℝ) =
      1802240 := by
    rw [hA, hB]
    norm_num [show (1/12 : ℝ) * 60 = 5 by norm_num, exp2_five]
  have hr : Real.logb 2 (((pmAudible.svA : ℝ) * exp2 ((pmAudible.svB : ℝ) * 60) +
      ((1788160 : ℚ) : ℝ)) / (pmAudible.svA : ℝ)) / (pmAudible.svB : ℝ) = 144 := by
    rw [hrv, hA, hB]
    rw [show (1802240 : ℝ) / 440 = exp2 12 by rw [exp2_twelve]; norm_num]
    rw [logb_two_exp2]
    norm_num
  refine ⟨?_, ?_, ?_, ?_⟩
  · unfold ParamMetaData.modulationNaturalFromString
    rw [show pmAudible.displayScale = DisplayScale.A_TWO_TO_THE_B from rfl]
    simp only []
    rw [if_neg (by rw [hrv]; norm_num), if_neg (by rw [hrv]; norm_num)]
    rw [if_pos]
    rw [hr, hMin, hMax]
    norm_num
  · rw [hr]
    norm_num
  · rw [hMin, hMax]
    norm_num
  · rw [hrv]
    norm_num

end SBB
